import Mathlib

/-!
Verification of the ORSO-to-Project importer (`rascal2/core/orso_importer.py`)
against its natural-language specification.

Shallow embedding conventions:
- Python floats are modelled by `ℚ` (exact rational arithmetic).
- `None`-able Python values are modelled by `Option`.
- A Python call that may raise is modelled by `Except Unit` (for the external
  `get_sld` / `resolve_to_layers` calls) or `Except String` (for the importer
  itself, whose only raise is a `ValueError` with a message).
- A numpy array that is 2-dimensional is modelled by its column count together
  with its rows; a non-2-D array is modelled by `none`.
- Filesystem side effects (directory creation, provenance copy, `load_orso`)
  are outside the model; the importer is modelled from the parsed dataset list.
-/

/-- A fit parameter row: `Parameter(name=..., min=..., value=..., max=..., fit=...)`. -/
structure Param where
  name : String
  min : ℚ
  value : ℚ
  max : ℚ
  fit : Bool
deriving DecidableEq, Repr

/-- A layer entity owned by the project (never touched by the importer). -/
structure LayerRec where
  name : String
deriving DecidableEq, Repr

/-- A data record: `ratapi.models.Data(name=..., data=...)`. -/
structure DataRec where
  name : String
  data : List (List ℚ)
deriving DecidableEq, Repr

/-- A contrast entity, as appended by `project.contrasts.append(...)`. -/
structure ContrastRec where
  name : String
  background : String
  resolution : String
  scalefactor : String
  bulk_in : String
  bulk_out : String
  data : String
deriving DecidableEq, Repr

/-- The claim-relevant collections of a `ratapi.Project`. -/
structure Project where
  parameters : List Param
  bulk_in : List Param
  bulk_out : List Param
  scalefactors : List Param
  layers : List LayerRec
  data : List DataRec
  contrasts : List ContrastRec
deriving DecidableEq, Repr

/-- Decidable equality for modelled fallible call outcomes. -/
instance {e a : Type} [DecidableEq e] [DecidableEq a] : DecidableEq (Except e a) := fun x y =>
  match x, y with
  | Except.ok u, Except.ok w =>
    if h : u = w then isTrue (by rw [h]) else isFalse (fun hc => by cases hc; exact h rfl)
  | Except.error u, Except.error w =>
    if h : u = w then isTrue (by rw [h]) else isFalse (fun hc => by cases hc; exact h rfl)
  | Except.ok _, Except.error _ => isFalse (fun hc => by cases hc)
  | Except.error _, Except.ok _ => isFalse (fun hc => by cases hc)

/-- An orsopy material: optional `name`, optional `formula`, and the outcome of
calling `get_sld().real` — `none` when the object has no `get_sld` attribute,
`some (Except.error ())` when the call raises, `some (Except.ok q)` otherwise. -/
structure OrsoMaterial where
  name : Option String
  formula : Option String
  get_sld : Option (Except Unit ℚ)
deriving DecidableEq, Repr

/-- An orsopy resolved layer: optional `material`, optional `original_name`. -/
structure OrsoLayer where
  material : Option OrsoMaterial
  original_name : Option String
deriving DecidableEq, Repr

/-- A 2-dimensional numpy array: `ncols = shape[1]`, `rows` the row vectors. -/
structure NDArray2 where
  ncols : Nat
  rows : List (List ℚ)
deriving DecidableEq, Repr

/-- One parsed ORSO dataset: sample name, optional model (whose
`resolve_to_layers()` either raises or returns a layer list), and the dataset
array (`none` when `np.asarray(ds.data)` is not 2-dimensional). -/
structure OrsoDataset where
  sample_name : Option String
  model : Option (Except Unit (List OrsoLayer))
  data : Option NDArray2
deriving DecidableEq, Repr

/-- Python `str.lower()` (basic-latin case folding, like the names here). -/
def pyLower (s : String) : String := ⟨s.data.map Char.toLower⟩

/-- Python `str.strip()`: drop leading and trailing whitespace. -/
def pyStrip (s : String) : String :=
  ⟨((s.data.dropWhile Char.isWhitespace).reverse.dropWhile Char.isWhitespace).reverse⟩

/-- One pass of Python `" ".join(s.split())`: emit word characters, inserting
a single space before a word whenever one was already emitted. -/
def collapseGo : List Char → Bool → Bool → List Char
  | [], _, _ => []
  | c :: t, started, pending =>
    if c.isWhitespace then collapseGo t started true
    else if started && pending then ' ' :: c :: collapseGo t true false
    else c :: collapseGo t true false

/-- Character-list prefix test (used for the substring and prefix checks). -/
def listPre : List Char → List Char → Bool
  | [], _ => true
  | _ :: _, [] => false
  | a :: as, b :: bs => a == b && listPre as bs

/-- Character-list substring test: Python `needle in hay`. -/
def listHas (n : List Char) (hay : List Char) : Bool :=
  listPre n hay ||
    match hay with
    | [] => false
    | _ :: t => listHas n t

/-- String substring test, case sensitive. -/
def strHas (needle hay : String) : Bool := listHas needle.data hay.data

/-- Python `needle.lower() in hay.lower()`. -/
def containsLower (hay needle : String) : Bool :=
  listHas (pyLower needle).data (pyLower hay).data

/-- Model of `_sanitize_name`: strip, collapse inner whitespace, fall back when empty. -/
def sanitize_name (s : Option String) (fallback : String) : String :=
  let t : String := ⟨collapseGo (s.getD "").data false false⟩
  if t = "" then fallback else t

/-- The catalogue of known bulk identifiers. -/
def KNOWN_BULKS : List String := ["D2O", "H2O", "AuMW", "SiMW", "SMW", "Si", "Air"]

/-- First catalogue entry that is a case-insensitive substring of `hay`. -/
def findKnownBulk (hay : String) : Option String :=
  KNOWN_BULKS.find? (fun kb => containsLower hay kb)

/-- Model of `_infer_bulk_name_from_layer`: material name, then original name, then
formula heuristics, else the fallback. -/
def infer_bulk_name_from_layer (layer : OrsoLayer) (fallback : String) : String :=
  let step1 : Option String :=
    match layer.material with
    | some m =>
      match m.name with
      | some n => if pyStrip n = "" then none else findKnownBulk n
      | none => none
    | none => none
  match step1 with
  | some kb => kb
  | none =>
    let step2 : Option String :=
      match layer.original_name with
      | some o => if pyStrip o = "" then none else findKnownBulk o
      | none => none
    match step2 with
    | some kb => kb
    | none =>
      let step3 : Option String :=
        match layer.material with
        | some m =>
          match m.formula with
          | some f =>
            if pyStrip f = "" then none
            else if strHas "d2o" (pyLower f) then some "D2O"
            else if strHas "h2o" (pyLower f) then some "H2O"
            else none
          | none => none
        | none => none
      step3.getD fallback

/-- Model of `_safe_get_sld`: `0.0` when the material is `None`, has no `get_sld`, or
the call raises; the real part of the SLD otherwise. Never raises. -/
def safe_get_sld (material : Option OrsoMaterial) : ℚ :=
  match material with
  | none => 0
  | some m =>
    match m.get_sld with
    | none => 0
    | some (Except.error _) => 0
    | some (Except.ok q) => q

/-- The reference name: prefixed with `"SLD "` unless already so prefixed. -/
def sldRefName (bulk_name : String) : String :=
  if listPre ("sld ".data) (pyLower bulk_name).data then bulk_name
  else "SLD " ++ bulk_name

/-- Checks `which.lower() in ("in", "bulkin", "bulk_in")`. -/
def bulkTargetIsIn (which : String) : Bool :=
  pyLower which == "in" || pyLower which == "bulkin" || pyLower which == "bulk_in"

/-- The selected parameter container. -/
def getTarget (p : Project) (isIn : Bool) : List Param :=
  if isIn then p.bulk_in else p.bulk_out

/-- Write back the selected parameter container. -/
def setTarget (p : Project) (isIn : Bool) (l : List Param) : Project :=
  if isIn then { p with bulk_in := l } else { p with bulk_out := l }

/-- In-place update of the first row whose name matches, as the source loop
does: set `min`, `max` and `value` and stop. -/
def update_matching_row (ref : String) (lo hi v : ℚ) : List Param → List Param
  | [] => []
  | r :: rest =>
    if r.name == ref then { r with min := lo, max := hi, value := v } :: rest
    else r :: update_matching_row ref lo hi v rest

/-- Model of `_ensure_bulk_parameter_exists`: return the reference name; when the SLD is
known, overwrite the matching row (or create one) with range
`[min(0.95 v, 1.05 v), max(0.95 v, 1.05 v)]` and value `v`; when the SLD is
unknown (`None`), leave the project untouched. -/
def ensure_bulk_parameter_exists (project : Project) (which : String)
    (bulk_name : String) (sld_value : Option ℚ) : Project × String :=
  let ref_name := sldRefName bulk_name
  let isIn := bulkTargetIsIn which
  let target := getTarget project isIn
  if target.any (fun r => r.name == ref_name) then
    match sld_value with
    | none => (project, ref_name)
    | some v =>
      let lo := min (v * (95 / 100)) (v * (105 / 100))
      let hi := max (v * (95 / 100)) (v * (105 / 100))
      (setTarget project isIn (update_matching_row ref_name lo hi v target), ref_name)
  else
    match sld_value with
    | none => (project, ref_name)
    | some v =>
      let lo := min (v * (95 / 100)) (v * (105 / 100))
      let hi := max (v * (95 / 100)) (v * (105 / 100))
      (setTarget project isIn
        (target ++ [{ name := ref_name, min := lo, value := v, max := hi, fit := false }]),
       ref_name)

/-- The `ValueError` message for a malformed dataset array. -/
def dataErrMsg (cname : String) : String :=
  "Dataset " ++ cname ++ " does not look like Nx2/Nx3 data."

/-- The synthesized 3-column row for 2-column input:
`[q, r, max(1e-12, 0.05 * abs r)]`. -/
def synthRow (row : List ℚ) : List ℚ :=
  [row.getD 0 0, row.getD 1 0,
   max (1 / 1000000000000) ((5 / 100) * |row.getD 1 0|)]

/-- Per-dataset array handling: raise for a non-2-D array or fewer than 2
columns; synthesize the uncertainty column for exactly 2 columns; otherwise
keep only the first 3 columns. -/
def process_data (cname : String) (arr : Option NDArray2) :
    Except String (List (List ℚ)) :=
  match arr with
  | none => Except.error (dataErrMsg cname)
  | some a =>
    if a.ncols < 2 then Except.error (dataErrMsg cname)
    else if a.ncols = 2 then Except.ok (a.rows.map synthRow)
    else Except.ok (a.rows.map (fun row => row.take 3))

/-- The defaults used when no model resolves: names `"Air"` / `"D2O"`, both
SLDs unknown. -/
def fallbackBulks : String × String × Option ℚ × Option ℚ :=
  ("Air", "D2O", none, none)

/-- Bulk name and SLD inference for one dataset: when the model exists,
`resolve_to_layers()` succeeds and yields at least 2 layers, infer names from
the first and last layer and read their SLDs via `safe_get_sld`; in every
other case (no model, the call raised, or fewer than 2 layers) keep the
fallbacks with unknown SLDs. -/
def resolveBulks (ds : OrsoDataset) : String × String × Option ℚ × Option ℚ :=
  match ds.model with
  | some (Except.ok ls) =>
    if 2 ≤ ls.length then
      match ls.head?, ls.getLast? with
      | some l0, some l1 =>
        (infer_bulk_name_from_layer l0 "Air",
         infer_bulk_name_from_layer l1 "D2O",
         some (safe_get_sld l0.material),
         some (safe_get_sld l1.material))
      | _, _ => fallbackBulks
    else fallbackBulks
  | _ => fallbackBulks

/-- One iteration of the dataset loop: name the contrast, validate and shape
the data array, ensure the two bulk parameters, then append the data record
and the contrast. -/
def ortStep (i : Nat) (ds : OrsoDataset) (p : Project) : Except String Project :=
  let cname := sanitize_name ds.sample_name ("Contrast " ++ toString i)
  match process_data cname ds.data with
  | Except.error msg => Except.error msg
  | Except.ok rows =>
    let r := resolveBulks ds
    let resIn := ensure_bulk_parameter_exists p "in" r.1 r.2.2.1
    let resOut := ensure_bulk_parameter_exists resIn.1 "out" r.2.1 r.2.2.2
    Except.ok { resOut.1 with
      data := resOut.1.data ++ [{ name := cname, data := rows }],
      contrasts := resOut.1.contrasts ++
        [{ name := cname, background := "Background 1",
           resolution := "Resolution 1", scalefactor := "Scalefactor 1",
           bulk_in := resIn.2, bulk_out := resOut.2, data := cname }] }

/-- The dataset loop, 1-indexed; the first raised error aborts it. -/
def ortLoop : Nat → List OrsoDataset → Project → Except String Project
  | _, [], p => Except.ok p
  | i, ds :: rest, p =>
    match ortStep i ds p with
    | Except.error m => Except.error m
    | Except.ok p2 => ortLoop (i + 1) rest p2

/-- Model of the inner `clamp_row` of `_clamp_all_parameter_values`: order the bounds locally
(without writing them back) and move an out-of-range value onto the violated
bound. -/
def clamp_row (row : Param) : Param :=
  let v := row.value
  let mn0 := row.min
  let mx0 := row.max
  let mn := if mx0 < mn0 then mx0 else mn0
  let mx := if mx0 < mn0 then mn0 else mx0
  if v < mn then { row with value := mn }
  else if mx < v then { row with value := mx }
  else row

/-- Model of `_clamp_all_parameter_values`: clamp every row of every list-valued
project attribute whose rows carry `min`/`max`/`value` fields; the layer,
data and contrast collections carry none and are untouched. -/
def clamp_all_parameter_values (p : Project) : Project :=
  { p with
    parameters := p.parameters.map clamp_row,
    bulk_in := p.bulk_in.map clamp_row,
    bulk_out := p.bulk_out.map clamp_row,
    scalefactors := p.scalefactors.map clamp_row }

/-- The list-valued attributes of the project whose rows carry numeric
`min`/`max`/`value` fields. -/
def paramLists (p : Project) : List (List Param) :=
  [p.parameters, p.bulk_in, p.bulk_out, p.scalefactors]

/-- Model of `import_ort_to_project`, filesystem effects elided: clear the contrast and
data collections, run the dataset loop, then clamp all parameter values. -/
def import_ort_to_project (orso : List OrsoDataset) (base : Project) :
    Except String Project :=
  (ortLoop 1 orso { base with contrasts := [], data := [] }).map
    clamp_all_parameter_values

/-- Returns `true` exactly when `process_data` raises: the array is not 2-dimensional
or has fewer than 2 columns. -/
def malformedArr : Option NDArray2 → Bool
  | none => true
  | some a => decide (a.ncols < 2)

/-- A project with every collection empty. -/
def emptyProject : Project :=
  { parameters := [], bulk_in := [], bulk_out := [], scalefactors := [],
    layers := [], data := [], contrasts := [] }

/-- A curated bulk-out parameter predating a merge. -/
def c1pre : Param := { name := "SLD D2O", min := 0, value := 5, max := 100, fit := false }

/-- A project already holding the curated bulk-out parameter. -/
def c1proj : Project := { emptyProject with bulk_out := [c1pre] }

/-- A material whose `get_sld()` call raises. -/
def matAirFail : OrsoMaterial :=
  { name := some "Air", formula := none, get_sld := some (Except.error ()) }

/-- A second failing material, named after heavy water. -/
def matD2OFail : OrsoMaterial :=
  { name := some "D2O", formula := none, get_sld := some (Except.error ()) }

/-- A dataset whose model resolves, but both bulk materials fail their SLD
computation. -/
def dsC2 : OrsoDataset :=
  { sample_name := some "S1",
    model := some (Except.ok
      [{ material := some matAirFail, original_name := none },
       { material := some matD2OFail, original_name := none }]),
    data := some { ncols := 3, rows := [[1, 2, 3]] } }

/-- A base project with a curated bulk-in parameter for `"SLD Air"`. -/
def baseC2 : Project :=
  { emptyProject with
    bulk_in := [{ name := "SLD Air", min := 1, value := 1, max := 2, fit := false }] }

/-- A silicon-named material with a known SLD. -/
def matSi : OrsoMaterial :=
  { name := some "Si", formula := none, get_sld := some (Except.ok 2) }

/-- A heavy-water material with a known SLD. -/
def matD2O : OrsoMaterial :=
  { name := some "D2O", formula := none, get_sld := some (Except.ok (63 / 10)) }

/-- First dataset of the two-dataset file: resolves Si / D2O bulks. -/
def dsA : OrsoDataset :=
  { sample_name := some "A",
    model := some (Except.ok
      [{ material := some matSi, original_name := none },
       { material := some matD2O, original_name := none }]),
    data := some { ncols := 3, rows := [[1, 1, 1]] } }

/-- Second dataset of the two-dataset file: no model at all. -/
def dsB : OrsoDataset :=
  { sample_name := some "B", model := none,
    data := some { ncols := 3, rows := [[1, 1, 1]] } }

/-- An inner layer between the two bulks. -/
def matSiO2 : OrsoMaterial :=
  { name := some "SiO2 oxide", formula := none, get_sld := some (Except.ok 3) }

/-- A dataset whose model resolves to three layers (one strictly inner). -/
def dsC3 : OrsoDataset :=
  { sample_name := some "C",
    model := some (Except.ok
      [{ material := some matSi, original_name := none },
       { material := some matSiO2, original_name := some "oxide film" },
       { material := some matD2O, original_name := none }]),
    data := some { ncols := 3, rows := [[1, 1, 1]] } }

/-- A dataset whose model resolution raises. -/
def dsC5 : OrsoDataset :=
  { sample_name := some "S5", model := some (Except.error ()),
    data := some { ncols := 2, rows := [[1, 2]] } }

/-- A well-formed 3-column dataset with no model. -/
def dsGood : OrsoDataset :=
  { sample_name := some "G", model := none,
    data := some { ncols := 3, rows := [[1, 2, 3]] } }

/-- A dataset whose array is not 2-dimensional. -/
def dsBad : OrsoDataset :=
  { sample_name := some "Bad", model := none, data := none }

/-- A placeholder contrast left over from project creation. -/
def oldContrast : ContrastRec :=
  { name := "old contrast", background := "Background 1",
    resolution := "Resolution 1", scalefactor := "Scalefactor 1",
    bulk_in := "SLD Air", bulk_out := "SLD D2O", data := "old data" }

/-- A base project still holding placeholder content in all collections. -/
def baseC8 : Project :=
  { emptyProject with
    layers := [{ name := "placeholder layer" }],
    contrasts := [oldContrast],
    data := [{ name := "old data", data := [[1, 2, 3]] }] }

/-- A base project with an out-of-range row in a collection the import never
touches. -/
def baseC9 : Project :=
  { emptyProject with
    parameters := [{ name := "P", min := 1, value := 5, max := 2, fit := true }] }

/-- Writing back via `setTarget` only rewrites the selected bulk container. -/
theorem setTarget_preserves (p : Project) (b : Bool) (l : List Param) :
    (setTarget p b l).parameters = p.parameters ∧
    (setTarget p b l).layers = p.layers ∧
    (setTarget p b l).data = p.data ∧
    (setTarget p b l).contrasts = p.contrasts ∧
    (setTarget p b l).scalefactors = p.scalefactors := by
  cases b <;> exact ⟨rfl, rfl, rfl, rfl, rfl⟩

/-- Reading back the container just written. -/
theorem getTarget_setTarget (p : Project) (b : Bool) (l : List Param) :
    getTarget (setTarget p b l) b = l := by
  cases b <;> rfl

/-- The bounds `0.95 v` / `1.05 v`, ordered, always bracket `v`. -/
theorem scaled_range_contains (v : ℚ) :
    min (v * (95 / 100)) (v * (105 / 100)) ≤ v ∧
    v ≤ max (v * (95 / 100)) (v * (105 / 100)) := by
  rcases le_total 0 v with h | h
  · exact ⟨le_trans (min_le_left _ _) (by nlinarith),
      le_trans (by nlinarith) (le_max_right _ _)⟩
  · exact ⟨le_trans (min_le_right _ _) (by nlinarith),
      le_trans (by nlinarith) (le_max_left _ _)⟩

/-- When a matching row exists, the updated list holds a row with the new
bounds and value. -/
theorem update_matching_row_mem (ref : String) (lo hi v : ℚ) (ps : List Param)
    (h : ps.any (fun r => r.name == ref) = true) :
    ∃ r ∈ update_matching_row ref lo hi v ps,
      r.name = ref ∧ r.min = lo ∧ r.max = hi ∧ r.value = v := by
  induction ps with
  | nil => simp at h
  | cons p rest ih =>
    by_cases hp : (p.name == ref) = true
    · refine ⟨{ p with min := lo, max := hi, value := v }, ?_, ?_, rfl, rfl, rfl⟩
      · simp [update_matching_row, hp]
      · exact eq_of_beq hp
    · have h' : rest.any (fun r => r.name == ref) = true := by
        simp only [List.any_cons, hp, Bool.false_or] at h
        exact h
      obtain ⟨r, hmem, hprops⟩ := ih h'
      refine ⟨r, ?_, hprops⟩
      simp only [update_matching_row, hp, if_false]
      exact List.mem_cons_of_mem _ hmem

/-- C1 (claim as stated is false): merging a known SLD of 10 into a curated
row with range `[0, 100]` replaces the range by `[9.5, 10.5]`, whose min is
strictly above the pre-existing min and whose max is strictly below the
pre-existing max — the range shrank. -/
theorem c1_range_shrinks_counterexample :
    (ensure_bulk_parameter_exists c1proj "out" "D2O" (some 10)).1.bulk_out =
      [{ name := "SLD D2O",
         min := min ((10 : ℚ) * (95 / 100)) ((10 : ℚ) * (105 / 100)),
         value := 10,
         max := max ((10 : ℚ) * (95 / 100)) ((10 : ℚ) * (105 / 100)),
         fit := false }] ∧
    c1pre.min = 0 ∧ c1pre.max = 100 ∧
    ¬(min ((10 : ℚ) * (95 / 100)) ((10 : ℚ) * (105 / 100)) ≤ c1pre.min) ∧
    ¬(c1pre.max ≤ max ((10 : ℚ) * (95 / 100)) ((10 : ℚ) * (105 / 100))) := by
  refine ⟨rfl, rfl, rfl, ?_, ?_⟩
  · show ¬(min ((10 : ℚ) * (95 / 100)) ((10 : ℚ) * (105 / 100)) ≤ 0)
    norm_num [min_def]
  · show ¬((100 : ℚ) ≤ max ((10 : ℚ) * (95 / 100)) ((10 : ℚ) * (105 / 100)))
    norm_num [max_def]

/-- C1 (amended): with a known nonzero SLD `v` and an existing row under the
derived reference name, the merger overwrites that row with
`min = min(0.95 v, 1.05 v)`, `max = max(0.95 v, 1.05 v)`, `value = v`; hence
`min ≤ value ≤ max`, but the previous range is replaced, not widened. -/
theorem ensure_known_overwrites_range (p : Project) (which bulk_name : String)
    (v : ℚ) (_hv : v ≠ 0)
    (hex : (getTarget p (bulkTargetIsIn which)).any
      (fun r => r.name == sldRefName bulk_name) = true) :
    (ensure_bulk_parameter_exists p which bulk_name (some v)).2 = sldRefName bulk_name ∧
    ∃ r ∈ getTarget (ensure_bulk_parameter_exists p which bulk_name (some v)).1
        (bulkTargetIsIn which),
      r.name = sldRefName bulk_name ∧
      r.min = min (v * (95 / 100)) (v * (105 / 100)) ∧
      r.max = max (v * (95 / 100)) (v * (105 / 100)) ∧
      r.value = v ∧ r.min ≤ r.value ∧ r.value ≤ r.max := by
  have hens : ensure_bulk_parameter_exists p which bulk_name (some v) =
      (setTarget p (bulkTargetIsIn which)
        (update_matching_row (sldRefName bulk_name)
          (min (v * (95 / 100)) (v * (105 / 100)))
          (max (v * (95 / 100)) (v * (105 / 100))) v
          (getTarget p (bulkTargetIsIn which))),
       sldRefName bulk_name) := by
    unfold ensure_bulk_parameter_exists
    simp [hex]
  obtain ⟨r, hmem, hname, hmin, hmax, hval⟩ :=
    update_matching_row_mem (sldRefName bulk_name)
      (min (v * (95 / 100)) (v * (105 / 100)))
      (max (v * (95 / 100)) (v * (105 / 100))) v
      (getTarget p (bulkTargetIsIn which)) hex
  refine ⟨by rw [hens], ⟨r, ?_, hname, hmin, hmax, hval, ?_, ?_⟩⟩
  · rw [hens, getTarget_setTarget]
    exact hmem
  · rw [hmin, hval]
    exact (scaled_range_contains v).1
  · rw [hmax, hval]
    exact (scaled_range_contains v).2

/-- Concrete instance of the amended C1 statement. -/
theorem ensure_known_overwrites_range_witness :
    (ensure_bulk_parameter_exists c1proj "out" "D2O" (some 10)).2 = sldRefName "D2O" ∧
    ∃ r ∈ getTarget (ensure_bulk_parameter_exists c1proj "out" "D2O" (some 10)).1
        (bulkTargetIsIn "out"),
      r.name = sldRefName "D2O" ∧
      r.min = min ((10 : ℚ) * (95 / 100)) ((10 : ℚ) * (105 / 100)) ∧
      r.max = max ((10 : ℚ) * (95 / 100)) ((10 : ℚ) * (105 / 100)) ∧
      r.value = 10 ∧ r.min ≤ r.value ∧ r.value ≤ r.max :=
  ensure_known_overwrites_range c1proj "out" "D2O" 10 (by norm_num) (by decide)

/-- C2 (claim as stated is false): `safe_get_sld` maps a raising `get_sld`
call to the known value `0.0`, not to `None`; the importer therefore passes a
known SLD of `0` for a resolved bulk layer whose SLD computation failed, and
the merger overwrites the value of the curated parameter — it is not left
bit-identical. -/
theorem c2_failed_sld_clobbers_counterexample :
    matAirFail.get_sld = some (Except.error ()) ∧
    resolveBulks dsC2 = ("Air", "D2O", some 0, some 0) ∧
    baseC2.bulk_in.map Param.value = [1] ∧
    (ensure_bulk_parameter_exists baseC2 "in" "Air"
      (some (safe_get_sld (some matAirFail)))).1.bulk_in.map Param.value = [0] ∧
    (1 : ℚ) ≠ 0 := by
  decide

/-- C2 (amended): the merger leaves the project untouched and still returns
the reference name exactly when its `sld_value` argument is `None`; a failed
SLD computation instead yields the known value `0.0`. -/
theorem ensure_unknown_is_noop (p : Project) (which bulk_name : String) :
    ensure_bulk_parameter_exists p which bulk_name none = (p, sldRefName bulk_name) ∧
    ∀ nm fm : Option String,
      safe_get_sld (some (OrsoMaterial.mk nm fm (some (Except.error ())))) = 0 := by
  constructor
  · simp only [ensure_bulk_parameter_exists]
    split <;> rfl
  · intro nm fm
    rfl

/-- The merger only ever rewrites the two bulk containers. -/
theorem ensure_preserves (p : Project) (which bulk_name : String) (s : Option ℚ) :
    (ensure_bulk_parameter_exists p which bulk_name s).1.parameters = p.parameters ∧
    (ensure_bulk_parameter_exists p which bulk_name s).1.layers = p.layers ∧
    (ensure_bulk_parameter_exists p which bulk_name s).1.data = p.data ∧
    (ensure_bulk_parameter_exists p which bulk_name s).1.contrasts = p.contrasts ∧
    (ensure_bulk_parameter_exists p which bulk_name s).1.scalefactors = p.scalefactors := by
  simp only [ensure_bulk_parameter_exists]
  cases s <;> split <;>
    first
      | exact ⟨rfl, rfl, rfl, rfl, rfl⟩
      | exact setTarget_preserves _ _ _

/-- The merger always returns the derived reference name. -/
theorem ensure_snd (p : Project) (which bulk_name : String) (s : Option ℚ) :
    (ensure_bulk_parameter_exists p which bulk_name s).2 = sldRefName bulk_name := by
  simp only [ensure_bulk_parameter_exists]
  cases s <;> split <;> rfl

/-- One loop iteration never touches layers, free parameters or scalefactors. -/
theorem ortStep_preserves (i : Nat) (ds : OrsoDataset) (p q : Project)
    (h : ortStep i ds p = Except.ok q) :
    q.layers = p.layers ∧ q.parameters = p.parameters ∧
    q.scalefactors = p.scalefactors := by
  simp only [ortStep] at h
  cases hpd : process_data (sanitize_name ds.sample_name ("Contrast " ++ toString i)) ds.data with
  | error m => rw [hpd] at h; cases h
  | ok rows =>
    rw [hpd] at h
    cases h
    obtain ⟨_, e1l, _, _, e1s⟩ :=
      ensure_preserves p "in" (resolveBulks ds).1 (resolveBulks ds).2.2.1
    obtain ⟨_, e2l, _, _, e2s⟩ :=
      ensure_preserves (ensure_bulk_parameter_exists p "in" (resolveBulks ds).1
        (resolveBulks ds).2.2.1).1 "out" (resolveBulks ds).2.1 (resolveBulks ds).2.2.2
    obtain ⟨e1p, _⟩ :=
      ensure_preserves p "in" (resolveBulks ds).1 (resolveBulks ds).2.2.1
    obtain ⟨e2p, _⟩ :=
      ensure_preserves (ensure_bulk_parameter_exists p "in" (resolveBulks ds).1
        (resolveBulks ds).2.2.1).1 "out" (resolveBulks ds).2.1 (resolveBulks ds).2.2.2
    exact ⟨e2l.trans e1l, e2p.trans e1p, e2s.trans e1s⟩

/-- The loop never touches layers, free parameters or scalefactors. -/
theorem ortLoop_preserves (orso : List OrsoDataset) : ∀ (i : Nat) (p q : Project),
    ortLoop i orso p = Except.ok q →
    q.layers = p.layers ∧ q.parameters = p.parameters ∧
    q.scalefactors = p.scalefactors := by
  induction orso with
  | nil =>
    intro i p q h
    simp only [ortLoop] at h
    cases h
    exact ⟨rfl, rfl, rfl⟩
  | cons ds rest ih =>
    intro i p q h
    simp only [ortLoop] at h
    cases hs : ortStep i ds p with
    | error m => rw [hs] at h; cases h
    | ok p2 =>
      rw [hs] at h
      obtain ⟨l1, p1, s1⟩ := ortStep_preserves i ds p p2 hs
      obtain ⟨l2, p2eq, s2⟩ := ih (i + 1) p2 q h
      exact ⟨l2.trans l1, p2eq.trans p1, s2.trans s1⟩

/-- Clamping changes at most the value field of a row. -/
theorem clamp_row_fields (r : Param) :
    (clamp_row r).name = r.name ∧ (clamp_row r).min = r.min ∧
    (clamp_row r).max = r.max ∧ (clamp_row r).fit = r.fit := by
  simp only [clamp_row]
  split
  all_goals split
  all_goals try exact ⟨rfl, rfl, rfl, rfl⟩
  all_goals split <;> exact ⟨rfl, rfl, rfl, rfl⟩

/-- Destructing a successful import run: the loop succeeded from the cleared
project, the result is its clamped project, and the collections the loop
never touches still match the base project. -/
theorem loopDestruct (orso : List OrsoDataset) (base proj : Project)
    (h : import_ort_to_project orso base = Except.ok proj) :
    ∃ q : Project,
      ortLoop 1 orso { base with contrasts := [], data := [] } = Except.ok q ∧
      proj = clamp_all_parameter_values q ∧
      q.layers = base.layers ∧ q.parameters = base.parameters ∧
      q.scalefactors = base.scalefactors := by
  unfold import_ort_to_project at h
  cases hl : ortLoop 1 orso { base with contrasts := [], data := [] } with
  | error m => rw [hl] at h; cases h
  | ok q =>
    rw [hl] at h
    simp only [Except.map] at h
    cases h
    obtain ⟨lq, pq, sq⟩ := ortLoop_preserves orso 1 _ q hl
    exact ⟨q, rfl, rfl, lq, pq, sq⟩

/-- C3 (claim as stated is false): on a file whose first dataset resolves to a
3-layer stack (one layer strictly between the bulks), the import result holds
no layer entity and no layer parameter at all. -/
theorem c3_no_layers_created_counterexample :
    (match dsC3.model with
      | some (Except.ok ls) => ls.length
      | _ => 0) = 3 ∧
    ((import_ort_to_project [dsC3] emptyProject).toOption.map
      (fun pr => (pr.layers.length, pr.parameters.length))) = some (0, 0) := by
  decide

/-- C3 (amended): the importer creates no layer entities and no layer
parameters for any resolved stack: the layers collection is returned exactly
as in the base project, and the free-parameter collection keeps its names and
its length; the resolved stack only feeds the bulk-in/bulk-out inference. -/
theorem import_creates_no_layers (orso : List OrsoDataset) (base proj : Project)
    (h : import_ort_to_project orso base = Except.ok proj) :
    proj.layers = base.layers ∧
    proj.parameters.map Param.name = base.parameters.map Param.name ∧
    proj.parameters.length = base.parameters.length := by
  obtain ⟨q, _, hclamp, hl, hp, _⟩ := loopDestruct orso base proj h
  subst hclamp
  refine ⟨hl, ?_, ?_⟩
  · show (q.parameters.map clamp_row).map Param.name = base.parameters.map Param.name
    rw [List.map_map, ← hp]
    exact List.map_congr_left (fun r _ => (clamp_row_fields r).1)
  · show (q.parameters.map clamp_row).length = base.parameters.length
    rw [List.length_map, hp]

/-- Concrete instance of the amended C3 statement. -/
theorem import_creates_no_layers_witness :
    ({ baseC8 with contrasts := [], data := [] } : Project).layers = baseC8.layers ∧
    ({ baseC8 with contrasts := [], data := [] } : Project).parameters.map Param.name =
      baseC8.parameters.map Param.name ∧
    ({ baseC8 with contrasts := [], data := [] } : Project).parameters.length =
      baseC8.parameters.length := by
  exact import_creates_no_layers [] baseC8
    { baseC8 with contrasts := [], data := [] } (by decide)

/-- C8 (claim as stated is false): importing an empty dataset list into a base
project that still holds a placeholder layer empties the contrast and data
collections but returns the layer collection untouched — the placeholder
layer is not discarded. -/
theorem c8_layers_not_reset_counterexample :
    ((import_ort_to_project [] baseC8).toOption.map
      (fun pr => (pr.contrasts.length, pr.data.length, pr.layers))) =
      some (0, 0, [{ name := "placeholder layer" }]) ∧
    ([{ name := "placeholder layer" }] : List LayerRec) ≠ ([] : List LayerRec) := by
  decide

/-- C8 (amended): before populating, the importer resets only the contrast
and data collections — the whole run is unchanged if those two collections
are cleared beforehand — while the layer collection is not reset and survives
into the result. -/
theorem import_resets_contrasts_data_only (orso : List OrsoDataset) (base : Project) :
    (import_ort_to_project orso base
      = import_ort_to_project orso { base with contrasts := [], data := [] }) ∧
    ∀ proj : Project, import_ort_to_project orso base = Except.ok proj →
      proj.layers = base.layers := by
  constructor
  · rfl
  · intro proj h
    obtain ⟨q, _, hclamp, hl, _, _⟩ := loopDestruct orso base proj h
    subst hclamp
    exact hl

/-- Concrete instance of the amended C8 statement. -/
theorem import_resets_contrasts_data_only_witness :
    (import_ort_to_project [] baseC8
      = import_ort_to_project [] { baseC8 with contrasts := [], data := [] }) ∧
    ({ baseC8 with contrasts := [], data := [] } : Project).layers = baseC8.layers :=
  ⟨(import_resets_contrasts_data_only [] baseC8).1,
   (import_resets_contrasts_data_only [] baseC8).2
     { baseC8 with contrasts := [], data := [] } (by decide)⟩

/-- C4 (claim as stated is false): in a two-dataset file whose first dataset
resolves a silicon bulk-in and whose second dataset has no model, the two
produced contrasts carry different bulk-in references — there is no single
file-wide bulk-in name. -/
theorem c4_bulk_in_per_dataset_counterexample :
    ((import_ort_to_project [dsA, dsB] emptyProject).toOption.map
      (fun pr => pr.contrasts.map ContrastRec.bulk_in)) =
      some ["SLD Si", "SLD Air"] ∧
    ("SLD Si" : String) ≠ "SLD Air" := by
  decide

/-- The contrast the loop body produces for `dsB`. -/
def contrastB : ContrastRec :=
  { name := "B", background := "Background 1",
    resolution := "Resolution 1", scalefactor := "Scalefactor 1",
    bulk_in := "SLD Air", bulk_out := "SLD D2O", data := "B" }

/-- The expected project after running the loop body on `dsB` alone. -/
def projB : Project :=
  { emptyProject with
    data := [{ name := "B", data := [[1, 1, 1]] }],
    contrasts := [contrastB] }

/-- C4 (amended): the bulk-in (and bulk-out) reference of every produced contrast
is derived from the resolved model of its own dataset, falling back to Air
when that dataset has no model; datasets are not tied to the resolution
of dataset 1. -/
theorem contrast_bulk_in_per_dataset (i : Nat) (ds : OrsoDataset) (p proj : Project)
    (h : ortStep i ds p = Except.ok proj) :
    ∃ c : ContrastRec,
      proj.contrasts = p.contrasts ++ [c] ∧
      c.bulk_in = sldRefName (resolveBulks ds).1 ∧
      c.bulk_out = sldRefName (resolveBulks ds).2.1 ∧
      (ds.model = none → (resolveBulks ds).1 = "Air") := by
  simp only [ortStep] at h
  cases hpd : process_data (sanitize_name ds.sample_name ("Contrast " ++ toString i)) ds.data with
  | error m => rw [hpd] at h; cases h
  | ok rows =>
    rw [hpd] at h
    cases h
    have e2 := (ensure_preserves (ensure_bulk_parameter_exists p "in" (resolveBulks ds).1
      (resolveBulks ds).2.2.1).1 "out" (resolveBulks ds).2.1 (resolveBulks ds).2.2.2).2.2.2.1
    have e1 := (ensure_preserves p "in" (resolveBulks ds).1 (resolveBulks ds).2.2.1).2.2.2.1
    refine ⟨ContrastRec.mk (sanitize_name ds.sample_name ("Contrast " ++ toString i))
      "Background 1" "Resolution 1" "Scalefactor 1"
      (ensure_bulk_parameter_exists p "in" (resolveBulks ds).1 (resolveBulks ds).2.2.1).2
      (ensure_bulk_parameter_exists (ensure_bulk_parameter_exists p "in" (resolveBulks ds).1
        (resolveBulks ds).2.2.1).1 "out" (resolveBulks ds).2.1 (resolveBulks ds).2.2.2).2
      (sanitize_name ds.sample_name ("Contrast " ++ toString i)), ?_, ?_, ?_, ?_⟩
    · dsimp only
      rw [e2, e1]
    · exact ensure_snd p "in" (resolveBulks ds).1 (resolveBulks ds).2.2.1
    · exact ensure_snd (ensure_bulk_parameter_exists p "in" (resolveBulks ds).1
        (resolveBulks ds).2.2.1).1 "out" (resolveBulks ds).2.1 (resolveBulks ds).2.2.2
    · intro hm
      simp [resolveBulks, hm, fallbackBulks]

/-- Concrete instance of the amended C4 statement. -/
theorem contrast_bulk_in_per_dataset_witness :
    ∃ c : ContrastRec,
      projB.contrasts = emptyProject.contrasts ++ [c] ∧
      c.bulk_in = sldRefName (resolveBulks dsB).1 ∧
      c.bulk_out = sldRefName (resolveBulks dsB).2.1 ∧
      (dsB.model = none → (resolveBulks dsB).1 = "Air") :=
  contrast_bulk_in_per_dataset 1 dsB emptyProject projB (by decide)

/-- A well-shaped array never makes `process_data` raise. -/
theorem process_data_ok (c : String) (a : NDArray2) (h : 2 ≤ a.ncols) :
    (process_data c (some a)).isOk = true := by
  simp only [process_data]
  rw [if_neg (by omega : ¬ a.ncols < 2)]
  split <;> rfl

/-- C5: a raising `resolve_to_layers()` is absorbed inside the loop body — the
dataset is handled exactly as one with no model at all, with the fallback
bulk names and unknown SLDs, and the dataset still imports successfully
whenever its data array is well shaped; the exception never escapes. -/
theorem resolve_failure_is_caught (i : Nat) (ds : OrsoDataset) (p : Project)
    (h : ds.model = some (Except.error ())) :
    resolveBulks ds = fallbackBulks ∧
    ortStep i ds p = ortStep i { ds with model := none } p ∧
    (∀ a : NDArray2, ds.data = some a → 2 ≤ a.ncols →
      (ortStep i ds p).isOk = true) := by
  have h1 : resolveBulks ds = fallbackBulks := by
    rw [resolveBulks, h]
  have h2 : resolveBulks { ds with model := none } = fallbackBulks := rfl
  refine ⟨h1, ?_, ?_⟩
  · simp only [ortStep, h1, h2]
  · intro a ha hc
    simp only [ortStep, ha]
    cases hpd : process_data (sanitize_name ds.sample_name ("Contrast " ++ toString i)) (some a) with
    | error m =>
      exfalso
      have hok := process_data_ok (sanitize_name ds.sample_name ("Contrast " ++ toString i)) a hc
      rw [hpd] at hok
      cases hok
    | ok rows => rfl

/-- Concrete instance of the C5 statement. -/
theorem resolve_failure_is_caught_witness :
    resolveBulks dsC5 = fallbackBulks ∧
    ortStep 1 dsC5 emptyProject = ortStep 1 { dsC5 with model := none } emptyProject ∧
    (ortStep 1 dsC5 emptyProject).isOk = true := by
  obtain ⟨a1, a2, a3⟩ := resolve_failure_is_caught 1 dsC5 emptyProject (by decide)
  exact ⟨a1, a2, a3 { ncols := 2, rows := [[1, 2]] } (by decide) (by decide)⟩

/-- A list is a prefix of itself followed by anything. -/
theorem listPre_self_append (n y : List Char) : listPre n (n ++ y) = true := by
  induction n with
  | nil => rfl
  | cons a as ih => simp [listPre, ih]

/-- The substring test finds a needle placed anywhere in the haystack. -/
theorem listHas_of_append (x n y : List Char) : listHas n (x ++ n ++ y) = true := by
  induction x with
  | nil =>
    show listHas n (n ++ y) = true
    rw [listHas.eq_def, listPre_self_append]
    rfl
  | cons c t ih =>
    show listHas n (c :: (t ++ n ++ y)) = true
    rw [listHas.eq_def]
    rw [List.append_assoc] at ih
    simp [ih]

/-- String version: `n` occurs in `x ++ n ++ y`. -/
theorem strHas_mid (x n y : String) : strHas n (x ++ n ++ y) = true := by
  show listHas n.data (x ++ n ++ y).data = true
  rw [String.data_append, String.data_append]
  exact listHas_of_append x.data n.data y.data

/-- A malformed array makes `process_data` raise the describing message. -/
theorem process_data_err (c : String) (arr : Option NDArray2)
    (h : malformedArr arr = true) :
    process_data c arr = Except.error (dataErrMsg c) := by
  cases arr with
  | none => rfl
  | some a =>
    simp only [malformedArr, decide_eq_true_eq] at h
    simp only [process_data]
    rw [if_pos h]

/-- The loop body succeeds exactly on a well-shaped data array. -/
theorem ortStep_isOk (i : Nat) (ds : OrsoDataset) (p : Project) :
    (ortStep i ds p).isOk = !(malformedArr ds.data) := by
  simp only [ortStep]
  cases hd : ds.data with
  | none => rfl
  | some a =>
    by_cases hc : a.ncols < 2
    · rw [show process_data (sanitize_name ds.sample_name ("Contrast " ++ toString i))
          (some a) = Except.error (dataErrMsg (sanitize_name ds.sample_name
          ("Contrast " ++ toString i))) from by simp [process_data, hc]]
      have hrhs : malformedArr (some a) = true := by simp [malformedArr, hc]
      rw [hrhs]
      rfl
    · cases hpd : process_data (sanitize_name ds.sample_name ("Contrast " ++ toString i)) (some a) with
      | error m =>
        exfalso
        have hok := process_data_ok (sanitize_name ds.sample_name
          ("Contrast " ++ toString i)) a (by omega)
        rw [hpd] at hok
        cases hok
      | ok rows => simp [malformedArr, hc, Except.isOk, Except.toBool]

/-- The loop succeeds exactly when every dataset array is well shaped. -/
theorem ortLoop_isOk (orso : List OrsoDataset) : ∀ (i : Nat) (p : Project),
    (ortLoop i orso p).isOk = true ↔ ∀ ds ∈ orso, malformedArr ds.data = false := by
  induction orso with
  | nil =>
    intro i p
    simp [ortLoop, Except.isOk, Except.toBool]
  | cons ds rest ih =>
    intro i p
    simp only [ortLoop]
    have hstep := ortStep_isOk i ds p
    cases hs : ortStep i ds p with
    | error m =>
      rw [hs] at hstep
      constructor
      · intro hfalse
        cases hfalse
      · intro hall
        exfalso
        rw [hall ds (by simp)] at hstep
        cases hstep
    | ok p2 =>
      rw [hs] at hstep
      have hds : malformedArr ds.data = false := by
        cases e : malformedArr ds.data
        · rfl
        · rw [e] at hstep
          cases hstep
      rw [ih (i + 1) p2]
      simp [List.forall_mem_cons, hds]

/-- Mapping the clamp over the outcome does not change success. -/
theorem exceptMap_isOk (f : Project → Project) (x : Except String Project) :
    (x.map f).isOk = x.isOk := by
  cases x <;> rfl

/-- C6: `process_data` raises exactly on a malformed array (not 2-D, or fewer
than 2 columns), with a message naming the contrast; a well-shaped array
never raises; and the whole import succeeds precisely when every dataset
array is well shaped — one malformed dataset aborts the run. -/
theorem malformed_data_aborts (cname : String) (arr : Option NDArray2)
    (orso : List OrsoDataset) (base : Project) :
    (malformedArr arr = true →
      process_data cname arr = Except.error (dataErrMsg cname) ∧
      strHas cname (dataErrMsg cname) = true) ∧
    (malformedArr arr = false → (process_data cname arr).isOk = true) ∧
    ((∀ ds ∈ orso, malformedArr ds.data = false) →
      (import_ort_to_project orso base).isOk = true) ∧
    ((∃ ds ∈ orso, malformedArr ds.data = true) →
      (import_ort_to_project orso base).isOk = false) := by
  refine ⟨?_, ?_, ?_, ?_⟩
  · intro h
    refine ⟨process_data_err cname arr h, ?_⟩
    show strHas cname ("Dataset " ++ cname ++ " does not look like Nx2/Nx3 data.") = true
    exact strHas_mid "Dataset " cname " does not look like Nx2/Nx3 data."
  · intro h
    cases arr with
    | none => simp [malformedArr] at h
    | some a =>
      apply process_data_ok
      simp only [malformedArr, decide_eq_false_iff_not] at h
      omega
  · intro hall
    unfold import_ort_to_project
    rw [exceptMap_isOk]
    exact (ortLoop_isOk orso 1 _).mpr hall
  · rintro ⟨ds, hmem, hbad⟩
    unfold import_ort_to_project
    rw [exceptMap_isOk]
    cases e : (ortLoop 1 orso { base with contrasts := [], data := [] }).isOk
    · rfl
    · exfalso
      have hall := (ortLoop_isOk orso 1 { base with contrasts := [], data := [] }).mp e
      rw [hall ds hmem] at hbad
      cases hbad

/-- Concrete instance of the C6 statement. -/
theorem malformed_data_aborts_witness :
    (process_data "X" none = Except.error (dataErrMsg "X") ∧
      strHas "X" (dataErrMsg "X") = true) ∧
    (process_data "X" (some { ncols := 3, rows := [[1, 2, 3]] })).isOk = true ∧
    (import_ort_to_project [dsGood] emptyProject).isOk = true ∧
    (import_ort_to_project [dsBad] emptyProject).isOk = false := by
  refine ⟨(malformed_data_aborts "X" none [] emptyProject).1 (by decide),
    (malformed_data_aborts "X" (some { ncols := 3, rows := [[1, 2, 3]] })
      [] emptyProject).2.1 (by decide),
    (malformed_data_aborts "X" none [dsGood] emptyProject).2.2.1 ?_,
    (malformed_data_aborts "X" none [dsBad] emptyProject).2.2.2 ?_⟩
  · intro ds hds
    rw [List.mem_singleton.mp hds]
    rfl
  · exact ⟨dsBad, by simp, rfl⟩

/-- C7: a 2-column array is upgraded to exactly 3 columns, the first two
columns are kept, the third equals `max(1e-12, 0.05 * abs R)` row by row and
is strictly positive; one loop iteration stores exactly that array in the
appended data record. -/
theorem two_column_synthesizes_uncertainty (cname : String) (rows : List (List ℚ)) :
    process_data cname (some { ncols := 2, rows := rows }) =
      Except.ok (rows.map synthRow) ∧
    (∀ out ∈ rows.map synthRow,
      out.length = 3 ∧
      out.getD 2 0 = max (1 / 1000000000000) ((5 / 100) * |out.getD 1 0|) ∧
      0 < out.getD 2 0) ∧
    (∀ (i : Nat) (ds : OrsoDataset) (p proj : Project),
      ds.data = some { ncols := 2, rows := rows } →
      ortStep i ds p = Except.ok proj →
      ∃ d : DataRec, proj.data = p.data ++ [d] ∧ d.data = rows.map synthRow) := by
  have hpd : ∀ c : String, process_data c (some { ncols := 2, rows := rows }) =
      Except.ok (rows.map synthRow) := by
    intro c
    simp [process_data]
  refine ⟨hpd cname, ?_, ?_⟩
  · intro out hout
    obtain ⟨row, hmem, rfl⟩ := List.mem_map.mp hout
    refine ⟨rfl, rfl, ?_⟩
    show (0 : ℚ) < max (1 / 1000000000000) ((5 / 100) * |row.getD 1 0|)
    exact lt_of_lt_of_le (by norm_num) (le_max_left _ _)
  · intro i ds p proj hds h
    simp only [ortStep, hds] at h
    rw [hpd (sanitize_name ds.sample_name ("Contrast " ++ toString i))] at h
    cases h
    have e2 := (ensure_preserves (ensure_bulk_parameter_exists p "in" (resolveBulks ds).1
      (resolveBulks ds).2.2.1).1 "out" (resolveBulks ds).2.1 (resolveBulks ds).2.2.2).2.2.1
    have e1 := (ensure_preserves p "in" (resolveBulks ds).1 (resolveBulks ds).2.2.1).2.2.1
    refine ⟨DataRec.mk (sanitize_name ds.sample_name ("Contrast " ++ toString i))
      (rows.map synthRow), ?_, rfl⟩
    dsimp only
    rw [e2, e1]

/-- Concrete instance of the C7 statement. -/
theorem two_column_synthesizes_uncertainty_witness :
    process_data "W" (some { ncols := 2, rows := [[1, 2], [3, -4]] }) =
      Except.ok ([[1, 2], [3, -4]].map synthRow) ∧
    (∀ out ∈ ([[1, 2], [3, -4]] : List (List ℚ)).map synthRow,
      out.length = 3 ∧
      out.getD 2 0 = max (1 / 1000000000000) ((5 / 100) * |out.getD 1 0|) ∧
      0 < out.getD 2 0) ∧
    (∀ (i : Nat) (ds : OrsoDataset) (p proj : Project),
      ds.data = some { ncols := 2, rows := [[1, 2], [3, -4]] } →
      ortStep i ds p = Except.ok proj →
      ∃ d : DataRec, proj.data = p.data ++ [d] ∧
        d.data = ([[1, 2], [3, -4]] : List (List ℚ)).map synthRow) :=
  two_column_synthesizes_uncertainty "W" [[1, 2], [3, -4]]

/-- C10: a 2-D array with more than 3 columns is accepted without error and
stored truncated to its first 3 columns. -/
theorem wide_data_truncated (cname : String) (a : NDArray2) (h : 3 < a.ncols) :
    process_data cname (some a) = Except.ok (a.rows.map (fun row => row.take 3)) ∧
    (process_data cname (some a)).isOk = true := by
  have hnot2 : ¬ a.ncols < 2 := by omega
  have hne2 : ¬ a.ncols = 2 := by omega
  refine ⟨?_, ?_⟩
  · simp only [process_data]
    rw [if_neg hnot2, if_neg hne2]
  · simp only [process_data]
    rw [if_neg hnot2, if_neg hne2]
    rfl

/-- Concrete instance of the C10 statement. -/
theorem wide_data_truncated_witness :
    process_data "W5" (some { ncols := 5, rows := [[1, 2, 3, 4, 5]] }) =
      Except.ok (([[1, 2, 3, 4, 5]] : List (List ℚ)).map (fun row => row.take 3)) ∧
    (process_data "W5" (some { ncols := 5, rows := [[1, 2, 3, 4, 5]] })).isOk = true :=
  wide_data_truncated "W5" { ncols := 5, rows := [[1, 2, 3, 4, 5]] } (by decide)

/-- The clamped value lies between the ordered bounds. -/
theorem clamp_row_value_bounds (r : Param) :
    min r.min r.max ≤ (clamp_row r).value ∧ (clamp_row r).value ≤ max r.min r.max := by
  simp only [clamp_row]
  split_ifs
  all_goals constructor
  all_goals simp only [min_def, max_def]
  all_goals split_ifs
  all_goals linarith

/-- The clamp moves an out-of-range value onto the violated (nearer) ordered
bound and leaves an in-range value alone. -/
theorem clamp_row_value_formula (r : Param) :
    (clamp_row r).value =
      if r.value < min r.min r.max then min r.min r.max
      else if max r.min r.max < r.value then max r.min r.max
      else r.value := by
  simp only [clamp_row, min_def, max_def]
  split_ifs
  all_goals try dsimp only
  all_goals first
    | rfl
    | linarith

/-- Every row of a clamped list is within its ordered bounds. -/
theorem mem_map_clamp_bounds (l : List Param) (r : Param) (hr : r ∈ l.map clamp_row) :
    min r.min r.max ≤ r.value ∧ r.value ≤ max r.min r.max := by
  obtain ⟨r0, _, rfl⟩ := List.mem_map.mp hr
  have hf := clamp_row_fields r0
  rw [hf.2.1, hf.2.2.1]
  exact clamp_row_value_bounds r0

/-- C9: when the import returns successfully, every row of every list-valued
parameter collection of the returned project — including collections the
loop itself never touched — satisfies
`min(min,max) ≤ value ≤ max(min,max)`; and the final clamp moves an
out-of-range value exactly onto the violated bound. -/
theorem clamped_after_import (orso : List OrsoDataset) (base proj : Project)
    (h : import_ort_to_project orso base = Except.ok proj) :
    (∀ l ∈ paramLists proj, ∀ r ∈ l,
      min r.min r.max ≤ r.value ∧ r.value ≤ max r.min r.max) ∧
    (∀ r : Param, (clamp_row r).value =
      if r.value < min r.min r.max then min r.min r.max
      else if max r.min r.max < r.value then max r.min r.max
      else r.value) := by
  obtain ⟨q, _, hclamp, _, _, _⟩ := loopDestruct orso base proj h
  subst hclamp
  refine ⟨?_, clamp_row_value_formula⟩
  intro l hl r hr
  simp only [paramLists, clamp_all_parameter_values, List.mem_cons,
    List.not_mem_nil, or_false] at hl
  rcases hl with rfl | rfl | rfl | rfl
  all_goals exact mem_map_clamp_bounds _ r hr

/-- The expected project from importing nothing into `baseC9`. -/
def projC9 : Project :=
  { emptyProject with
    parameters := [{ name := "P", min := 1, value := 2, max := 2, fit := true }] }

/-- Concrete instance of the C9 statement: the out-of-range placeholder row
in the untouched free-parameter collection was clamped onto its max. -/
theorem clamped_after_import_witness :
    (∀ l ∈ paramLists projC9, ∀ r ∈ l,
      min r.min r.max ≤ r.value ∧ r.value ≤ max r.min r.max) ∧
    (∀ r : Param, (clamp_row r).value =
      if r.value < min r.min r.max then min r.min r.max
      else if max r.min r.max < r.value then max r.min r.max
      else r.value) :=
  clamped_after_import [] baseC9 projC9 (by decide)
